import Mathlib

/-!
Shallow embedding of the transaction-ledger core of the BudgetSaver backend
(`src/controllers/transaction.controller.ts`, together with the mongoose
schemas `project.model.ts`, `party.model.ts`, `transaction.model.ts`).

The document store is modelled as lists of documents; `findOne` becomes
`List.find?`, `findByIdAndUpdate` becomes a map over the list that rewrites
every document with the matching id, and `create` appends a document with a
fresh id drawn from a counter.

Two pieces of mongoose semantics matter and are modelled explicitly:

* `ProjectSchema` declares `totalIncome`, `totalExpense` and `netProfit` but
  no `balance` path.  The schema is created without `strict: false`, so
  mongoose strict mode (the default) silently strips unknown paths from
  update documents.  `createTransaction` calls
  `Project.findByIdAndUpdate(project, { totalIncome, totalExpense, balance })`:
  the `balance` key is stripped and `netProfit` keeps its previous value.
  `updateTransaction` and `deleteTransaction` write `netProfit` instead,
  which is a real schema path.  `setProjectTotals` below therefore takes the
  new signed-balance value as an `Option Int`: `none` for the stripped
  `balance` write, `some v` for the `netProfit` writes.

* `document.save()` (used by `updateTransaction` / `deleteTransaction`)
  runs schema validation; the only validator expressible in this model is
  `amount: { min: 0 }` on `TransactionSchema`, so a save with a negative
  amount throws a `ValidationError` (the controller turns it into a 400).
  `findByIdAndUpdate` does not run validators, so project totals can be
  persisted unchecked.

Request bodies that reach the controller always carry the modelled fields
(ids as `Nat`, the kind as a valid enum value, dates ignored); the
JavaScript falsiness check `!amount` is kept as its `amount == 0` case.
-/

/-- Transaction kind, the `type` enum of `TransactionSchema`:
`'income' | 'expense'`. -/
inductive TxKind where
  | income
  | expense
deriving DecidableEq, Repr

/-- Party category, the `partyType` enum of `PartySchema`:
`'CLIENT' | 'VENDOR'`. -/
inductive PartyType where
  | CLIENT
  | VENDOR
deriving DecidableEq, Repr

/-- Persisted project document, restricted to the `ProjectSchema` fields the
ledger logic reads or writes: `_id`, `createdBy`, `totalIncome`,
`totalExpense`, `netProfit`.  There is no `balance` field because
`ProjectSchema` declares none. -/
structure ProjectDoc where
  id : Nat
  createdBy : Nat
  totalIncome : Int
  totalExpense : Int
  netProfit : Int
deriving DecidableEq, Repr

/-- Persisted party document (`PartySchema`): `_id`, owning `project`,
`partyType`. -/
structure PartyDoc where
  id : Nat
  project : Nat
  partyType : PartyType
deriving DecidableEq, Repr

/-- Persisted transaction document (`TransactionSchema`): `_id`, `project`,
`party`, `type`, `amount`, `note`, `isDeleted`.  Dates, file metadata and
`createdBy` play no role in any claim and are omitted. -/
structure TransactionDoc where
  id : Nat
  project : Nat
  party : Nat
  type : TxKind
  amount : Int
  note : Option String
  isDeleted : Bool
deriving DecidableEq, Repr

/-- The document store: one list per collection, plus a counter supplying
fresh `_id`s for created transactions. -/
structure Store where
  projects : List ProjectDoc
  parties : List PartyDoc
  transactions : List TransactionDoc
  nextId : Nat
deriving DecidableEq, Repr

/-- `getProjectsByUser` from the controller:
`Project.find({ createdBy: userId }).select('_id')`. -/
def getProjectsByUser (userId : Nat) (ps : List ProjectDoc) : List Nat :=
  (ps.filter (fun p => p.createdBy == userId)).map (fun p => p.id)

/-- `Project.findByIdAndUpdate(pid, { totalIncome, totalExpense, ... })`.
The signed-balance argument is `none` when the controller supplied the
`balance` key (not a schema path, stripped by strict mode, so `netProfit`
is left as it was) and `some v` when it supplied `netProfit`. -/
def setProjectTotals (pid : Nat) (ti te : Int) (np : Option Int)
    (ps : List ProjectDoc) : List ProjectDoc :=
  ps.map (fun p =>
    if p.id == pid then
      { p with totalIncome := ti, totalExpense := te,
               netProfit := np.getD p.netProfit }
    else p)

/-- Errors `createTransaction` can answer with, one constructor per early
`return` in the handler (ignoring auth and date parsing, which the model
abstracts away). -/
inductive CreateErr where
  | missingFields
  | nonPositiveAmount
  | projectNotFound
  | partyNotFound
  | clientOnlyIncome
  | vendorOnlyExpense
deriving DecidableEq, Repr

/-- HTTP status the handler sends for each `createTransaction` error. -/
def CreateErr.status : CreateErr → Nat
  | .missingFields => 400
  | .nonPositiveAmount => 400
  | .projectNotFound => 404
  | .partyNotFound => 404
  | .clientOnlyIncome => 400
  | .vendorOnlyExpense => 400

/-- Body of a `createTransaction` request (ids resolved to `Nat`, optional
date/file fields dropped). -/
structure CreateBody where
  project : Nat
  party : Nat
  type : TxKind
  amount : Int
  note : Option String
deriving DecidableEq, Repr

/-- `createTransaction` from `transaction.controller.ts`.  Returns the store
after the handler ran together with the outcome (`ok` carries the new
transaction's `_id`).  Steps, in the handler's order:
1. `!project || !party || !type || !amount` — only the `amount` conjunct can
   fire in this model (`!amount` is true exactly for `amount == 0`);
2. `amount <= 0`;
3. project lookup scoped to `createdBy: userId`;
4. party lookup scoped to `project`;
5. CLIENT/VENDOR compatibility checks;
6. project totals recomputed and written (the `balance` key is stripped, see
   the file comment), then the transaction document is created. -/
def createTransaction (userId : Nat) (b : CreateBody) (s : Store) :
    Store × Except CreateErr Nat :=
  if b.amount == 0 then
    (s, .error .missingFields)
  else if b.amount ≤ 0 then
    (s, .error .nonPositiveAmount)
  else
    match s.projects.find? (fun p => p.id == b.project && p.createdBy == userId) with
    | none => (s, .error .projectNotFound)
    | some projectExists =>
      match s.parties.find? (fun pa => pa.id == b.party && pa.project == b.project) with
      | none => (s, .error .partyNotFound)
      | some partyExists =>
        if partyExists.partyType == .CLIENT && b.type != .income then
          (s, .error .clientOnlyIncome)
        else if partyExists.partyType == .VENDOR && b.type != .expense then
          (s, .error .vendorOnlyExpense)
        else
          let updatedTotalIncome :=
            if b.type == .income then projectExists.totalIncome + b.amount
            else projectExists.totalIncome
          let updatedTotalExpense :=
            if b.type == .expense then projectExists.totalExpense + b.amount
            else projectExists.totalExpense
          let tx : TransactionDoc :=
            { id := s.nextId, project := b.project, party := b.party,
              type := b.type, amount := b.amount, note := b.note,
              isDeleted := false }
          ({ s with
              projects := setProjectTotals b.project
                updatedTotalIncome updatedTotalExpense none s.projects,
              transactions := s.transactions ++ [tx],
              nextId := s.nextId + 1 },
           .ok s.nextId)

deriving instance DecidableEq for Except

/-- `resolveOwnedTransaction` (spec §4.2): the query
`Transaction.findOne({ _id: id, isDeleted: false, project: { $in: ownedProjectIds } })`
that both `updateTransaction` and `deleteTransaction` open with. -/
def resolveOwnedTransaction (userId txId : Nat) (s : Store) :
    Option TransactionDoc :=
  s.transactions.find? (fun t =>
    t.id == txId && t.isDeleted == false
      && (getProjectsByUser userId s.projects).contains t.project)

/-- Errors `updateTransaction` can answer with. `validationFailed` is the
`ValidationError` thrown by `existingTransaction.save()` when the merged
document violates `amount: { min: 0 }`. -/
inductive UpdateErr where
  | txNotFound
  | clientOnlyIncome
  | vendorOnlyExpense
  | validationFailed
deriving DecidableEq, Repr

/-- HTTP status for each `updateTransaction` error. -/
def UpdateErr.status : UpdateErr → Nat
  | .txNotFound => 404
  | .clientOnlyIncome => 400
  | .vendorOnlyExpense => 400
  | .validationFailed => 400

/-- Body of an `updateTransaction` request.  The controller takes
`req.body` as-is, so any transaction field can appear; the model keeps the
fields of `TransactionDoc`.  `none` means the key is absent. -/
structure UpdateBody where
  type : Option TxKind
  amount : Option Int
  project : Option Nat
  party : Option Nat
  isDeleted : Option Bool
  note : Option String
deriving DecidableEq, Repr

/-- The body with every key absent. -/
def UpdateBody.empty : UpdateBody :=
  { type := none, amount := none, project := none, party := none,
    isDeleted := none, note := none }

/-- `Object.assign(existingTransaction, updates)`: every key present in the
body overwrites the stored field, every absent key leaves it unchanged. -/
def applyUpdates (t : TransactionDoc) (u : UpdateBody) : TransactionDoc :=
  { t with
    type := u.type.getD t.type,
    amount := u.amount.getD t.amount,
    project := u.project.getD t.project,
    party := u.party.getD t.party,
    isDeleted := u.isDeleted.getD t.isDeleted,
    note := match u.note with | some n => some n | none => t.note }

/-- The party-type re-validation block of `updateTransaction`: runs only
when the body carries `type`; looks the transaction's party up with
`Party.findById` and, **only if the party document still exists**, rejects a
kind incompatible with its category. -/
def updatePartyTypeCheck (newType : TxKind) (paOpt : Option PartyDoc) :
    Option UpdateErr :=
  match paOpt with
  | none => none
  | some party =>
    if party.partyType == .CLIENT && newType != .income then
      some .clientOnlyIncome
    else if party.partyType == .VENDOR && newType != .expense then
      some .vendorOnlyExpense
    else none

/-- The reversal-and-reapply totals computation of `updateTransaction`:
subtract the old amount from the accumulator matching the old kind, then add
the new amount to the accumulator matching the new kind. -/
def reverseAndReapply (ti te : Int) (oldType : TxKind) (oldAmount : Int)
    (newType : TxKind) (newAmount : Int) : Int × Int :=
  let ti1 := if oldType == .income then ti - oldAmount else ti
  let te1 := if oldType == .expense then te - oldAmount else te
  let ti2 := if newType == .income then ti1 + newAmount else ti1
  let te2 := if newType == .expense then te1 + newAmount else te1
  (ti2, te2)

/-- The `if (updates.type !== undefined)` guard around the party-type
re-validation in `updateTransaction`. -/
def updateTypeGuard (u : UpdateBody) (partyOf : Option PartyDoc) :
    Option UpdateErr :=
  match u.type with
  | none => none
  | some newType => updatePartyTypeCheck newType partyOf

/-- The `if (updates.amount !== undefined || updates.type !== undefined)`
block of `updateTransaction`: when the body carries `amount` or `type`, load
the transaction's project with `Project.findById` and, if found, write the
reversed-and-reapplied totals together with `netProfit` (a real schema path
this time); otherwise leave the projects collection alone. -/
def updateProjectsAfter (u : UpdateBody) (tx : TransactionDoc)
    (ps : List ProjectDoc) : List ProjectDoc :=
  if u.amount.isSome || u.type.isSome then
    match ps.find? (fun p => p.id == tx.project) with
    | none => ps
    | some project =>
      let newType := u.type.getD tx.type
      let newAmount := u.amount.getD tx.amount
      let totals := reverseAndReapply project.totalIncome project.totalExpense
        tx.type tx.amount newType newAmount
      setProjectTotals project.id totals.1 totals.2
        (some (totals.1 - totals.2)) ps
  else ps

/-- `updateTransaction` from `transaction.controller.ts`.  Steps, in the
handler's order:
1. resolve the transaction through `resolveOwnedTransaction` — else 404;
2. if the body carries `type`, re-validate against the existing party's
   category (skipped entirely when `Party.findById` finds nothing);
3. if the body carries `amount` or `type`, recompute and persist the
   project totals (`updateProjectsAfter`);
4. `Object.assign` the body onto the document and `save()` it — a merged
   negative amount makes `save()` throw, *after* the project totals were
   already persisted, which is why the error branch keeps the new store. -/
def updateTransaction (userId txId : Nat) (u : UpdateBody) (s : Store) :
    Store × Except UpdateErr Unit :=
  match resolveOwnedTransaction userId txId s with
  | none => (s, .error .txNotFound)
  | some existingTransaction =>
    match updateTypeGuard u
        (s.parties.find? (fun pa => pa.id == existingTransaction.party)) with
    | some e => (s, .error e)
    | none =>
      if (applyUpdates existingTransaction u).amount < 0 then
        ({ s with
            projects := updateProjectsAfter u existingTransaction s.projects },
         .error .validationFailed)
      else
        ({ s with
            projects := updateProjectsAfter u existingTransaction s.projects,
            transactions := s.transactions.map (fun t =>
              if t.id == txId then applyUpdates existingTransaction u else t) },
         .ok ())

/-- Errors `deleteTransaction` can answer with. -/
inductive DeleteErr where
  | txNotFound
  | validationFailed
deriving DecidableEq, Repr

/-- The totals-reversal block of `deleteTransaction`: load the project with
`Project.findById` and, if found, subtract the transaction's amount from the
accumulator matching its kind and write the totals plus `netProfit`. -/
def deleteProjectsAfter (tx : TransactionDoc) (ps : List ProjectDoc) :
    List ProjectDoc :=
  match ps.find? (fun p => p.id == tx.project) with
  | none => ps
  | some project =>
    let ti :=
      if tx.type == .income then project.totalIncome - tx.amount
      else project.totalIncome
    let te :=
      if tx.type == .expense then project.totalExpense - tx.amount
      else project.totalExpense
    setProjectTotals project.id ti te (some (ti - te)) ps

/-- `deleteTransaction` (soft delete) from `transaction.controller.ts`:
1. resolve the transaction through `resolveOwnedTransaction` — else 404;
2. reverse the transaction out of the project totals
   (`deleteProjectsAfter`), writing `netProfit`;
3. set `isDeleted` and `save()` the document (schema validation still runs;
   a stored negative amount would make it throw after the totals write). -/
def deleteTransaction (userId txId : Nat) (s : Store) :
    Store × Except DeleteErr Unit :=
  match resolveOwnedTransaction userId txId s with
  | none => (s, .error .txNotFound)
  | some transaction =>
    if transaction.amount < 0 then
      ({ s with projects := deleteProjectsAfter transaction s.projects },
       .error .validationFailed)
    else
      ({ s with
          projects := deleteProjectsAfter transaction s.projects,
          transactions := s.transactions.map (fun t =>
            if t.id == txId then { transaction with isDeleted := true } else t) },
       .ok ())

/-! Concrete fixtures used by counterexamples and witnesses. -/

/-- A project with `_id` 1 owned by user 7, with the given `totalIncome`,
`totalExpense` and `netProfit`. -/
def fixProject (ti te np : Int) : ProjectDoc :=
  { id := 1, createdBy := 7, totalIncome := ti, totalExpense := te, netProfit := np }

/-- A CLIENT party (`_id` 2) of project 1. -/
def fixClient : PartyDoc := { id := 2, project := 1, partyType := .CLIENT }

/-- A VENDOR party (`_id` 3) of project 1. -/
def fixVendor : PartyDoc := { id := 3, project := 1, partyType := .VENDOR }

/-- A stored, non-deleted transaction (`_id` 4) of project 1 referencing
party 2. -/
def fixTx (k : TxKind) (a : Int) : TransactionDoc :=
  { id := 4, project := 1, party := 2, type := k, amount := a, note := none,
    isDeleted := false }

/-- A second project (`_id` 2) owned by the same user 7. -/
def fixOther : ProjectDoc :=
  { id := 2, createdBy := 7, totalIncome := 0, totalExpense := 0, netProfit := 0 }

/-- A VENDOR party stored under `_id` 2 (same id the fixture transaction
references). -/
def fixVendorAt2 : PartyDoc := { id := 2, project := 1, partyType := .VENDOR }

/-- An update body carrying only `amount`. -/
def amountOnly (B : Int) : UpdateBody := { UpdateBody.empty with amount := some B }

/-- An update body carrying only `type`. -/
def kindOnly (k : TxKind) : UpdateBody := { UpdateBody.empty with type := some k }

/-! Helper lemmas about the store model. -/

/-- A document rewritten by `setProjectTotals` keeps its `_id`. -/
lemma setProjectTotals_fun_id (pid : Nat) (ti te : Int) (np : Option Int)
    (p : ProjectDoc) :
    (if p.id == pid then
      { p with totalIncome := ti, totalExpense := te,
               netProfit := np.getD p.netProfit }
     else p).id = p.id := by
  by_cases h : (p.id == pid) = true <;> simp [h]

/-- A document rewritten by `setProjectTotals` keeps its `createdBy`. -/
lemma setProjectTotals_fun_createdBy (pid : Nat) (ti te : Int) (np : Option Int)
    (p : ProjectDoc) :
    (if p.id == pid then
      { p with totalIncome := ti, totalExpense := te,
               netProfit := np.getD p.netProfit }
     else p).createdBy = p.createdBy := by
  by_cases h : (p.id == pid) = true <;> simp [h]

/-- Looking the project up again after `setProjectTotals` yields the
rewritten document. -/
lemma setProjectTotals_find (ps : List ProjectDoc) (pid : Nat) (ti te : Int)
    (np : Option Int) (p : ProjectDoc)
    (h : ps.find? (fun q => q.id == pid) = some p) :
    (setProjectTotals pid ti te np ps).find? (fun q => q.id == pid) =
      some { p with totalIncome := ti, totalExpense := te,
                    netProfit := np.getD p.netProfit } := by
  induction ps with
  | nil => simp [List.find?] at h
  | cons a l ih =>
    unfold setProjectTotals at ih ⊢
    simp only [List.map_cons]
    by_cases ha : (a.id == pid) = true
    · simp only [List.find?, ha, if_true] at h ⊢
      injection h with h
      subst h
      rfl
    · simp only [List.find?, ha, Bool.false_eq_true, if_false] at h ⊢
      exact ih h

/-- `setProjectTotals` does not change which projects a user owns. -/
lemma getProjectsByUser_setProjectTotals (uid pid : Nat) (ti te : Int)
    (np : Option Int) (ps : List ProjectDoc) :
    getProjectsByUser uid (setProjectTotals pid ti te np ps) =
      getProjectsByUser uid ps := by
  induction ps with
  | nil => rfl
  | cons a l ih =>
    unfold setProjectTotals getProjectsByUser at ih ⊢
    simp only [List.map_cons, List.filter_cons]
    rw [setProjectTotals_fun_createdBy]
    by_cases hcb : (a.createdBy == uid) = true
    · simp only [hcb, if_pos, List.map_cons]
      rw [setProjectTotals_fun_id]
      exact congrArg _ ih
    · simp only [hcb, Bool.false_eq_true, if_neg, not_false_iff]
      exact ih

/-- A project found by the ownership-scoped lookup contributes its id to
`getProjectsByUser`. -/
lemma contains_of_find_owned (uid pid : Nat) (ps : List ProjectDoc)
    (p : ProjectDoc)
    (h : ps.find? (fun q => q.id == pid && q.createdBy == uid) = some p) :
    (getProjectsByUser uid ps).contains pid = true := by
  have hmem : p ∈ ps := List.mem_of_find?_eq_some h
  have hp := List.find?_some h
  simp only [Bool.and_eq_true, beq_iff_eq] at hp
  unfold getProjectsByUser List.contains
  apply List.elem_eq_true_of_mem
  rw [List.mem_map]
  refine ⟨p, ?_, hp.1⟩
  rw [List.mem_filter]
  exact ⟨hmem, by simp [hp.2]⟩

/-- An ownership-scoped project lookup also succeeds as a plain id lookup
(with the same or an earlier document); stated for the forms the controller
uses.  The id-only lookup finds the first document with that id, which need
not be the owned one, so this only asserts existence. -/
lemma find_by_id_isSome_of_find_owned (uid pid : Nat) (ps : List ProjectDoc)
    (p : ProjectDoc)
    (h : ps.find? (fun q => q.id == pid && q.createdBy == uid) = some p) :
    (ps.find? (fun q => q.id == pid)).isSome = true := by
  have hmem : p ∈ ps := List.mem_of_find?_eq_some h
  have hp := List.find?_some h
  simp only [Bool.and_eq_true, beq_iff_eq] at hp
  rw [List.find?_isSome]
  exact ⟨p, hmem, by simp [hp.1]⟩

/-- Appending a document whose id is fresh: the combined lookup finds the
appended document when it satisfies the predicate and nothing before it
does. -/
lemma find_append_fresh (l : List TransactionDoc) (tx : TransactionDoc)
    (pred : TransactionDoc → Bool)
    (hl : ∀ t ∈ l, pred t = false) (htx : pred tx = true) :
    (l ++ [tx]).find? pred = some tx := by
  rw [List.find?_append]
  have h1 : l.find? pred = none := by
    rw [List.find?_eq_none]
    intro x hx
    simp [hl x hx]
  rw [h1]
  simp [List.find?, htx]

/-! Claim theorems. -/

/-- C1: the claimed invariant — after every successful transaction mutation
the project's persisted signed balance field equals `totalIncome -
totalExpense` — is the code's evident intent, but `createTransaction`
violates it: on a fresh project `(totalIncome 0, totalExpense 0,
netProfit 0)`, creating an income transaction of amount 5 succeeds and
persists totals `(5, 0)`, yet the signed balance field `netProfit` is still
`0 ≠ 5 - 0`, because the handler writes the recomputed balance under the key
`balance`, which is not a `ProjectSchema` path and is silently stripped by
mongoose strict mode (update and soft delete write `netProfit` instead). -/
theorem C1_create_leaves_netProfit_stale :
    (createTransaction 7
      { project := 1, party := 2, type := .income, amount := 5, note := none }
      { projects := [fixProject 0 0 0], parties := [fixClient],
        transactions := [], nextId := 10 }).2 = .ok 10
    ∧ (createTransaction 7
        { project := 1, party := 2, type := .income, amount := 5, note := none }
        { projects := [fixProject 0 0 0], parties := [fixClient],
          transactions := [], nextId := 10 }).1.projects
        = [fixProject 5 0 0]
    ∧ (fixProject 5 0 0).netProfit ≠
        (fixProject 5 0 0).totalIncome - (fixProject 5 0 0).totalExpense := by
  refine ⟨by decide, by decide, by decide⟩

/-- C2: creating an income transaction of amount A = 5 on a project with
totals (I, E) = (10, 4) does persist totals (15, 4) as claimed, but the
claim's balance part fails: the persisted signed balance field `netProfit`
keeps its old value 6 instead of becoming I + A - E = 11, because the
handler's balance write targets the stripped `balance` key. -/
theorem C2_create_updates_totals_but_not_balance :
    (createTransaction 7
      { project := 1, party := 2, type := .income, amount := 5, note := none }
      { projects := [fixProject 10 4 6], parties := [fixClient],
        transactions := [], nextId := 10 }).2 = .ok 10
    ∧ (createTransaction 7
        { project := 1, party := 2, type := .income, amount := 5, note := none }
        { projects := [fixProject 10 4 6], parties := [fixClient],
          transactions := [], nextId := 10 }).1.projects
        = [fixProject 15 4 6]
    ∧ (fixProject 15 4 6).netProfit ≠ 10 + 5 - 4 := by
  refine ⟨by decide, by decide, by decide⟩

/-- C4 counterexample: a request whose `projectId` resolves to no project
owned by the acting user (the store is empty) and whose amount is not
greater than 0 is answered with the non-positive-amount error (HTTP 400,
the spec's `InvalidInput`), not `NotFound` (404): the handler checks
`amount <= 0` before it ever looks the project up, so the claimed order
does not hold. -/
theorem C4_counterexample_amount_before_ownership :
    (createTransaction 7
      { project := 1, party := 2, type := .income, amount := -1, note := none }
      { projects := [], parties := [], transactions := [], nextId := 0 }).2
      = .error .nonPositiveAmount
    ∧ CreateErr.nonPositiveAmount.status = 400
    ∧ CreateErr.nonPositiveAmount ≠ CreateErr.projectNotFound
    ∧ CreateErr.projectNotFound.status = 404 := by decide

/-- C5 counterexample: `updateTransaction` accepts a body `{ amount: 0 }` on
an existing income transaction of amount 5 (the schema validator on save is
`min: 0`, and the handler never re-checks positivity), leaving a stored,
non-deleted transaction with amount 0 — so the invariant `amount > 0` does
not survive updates. -/
theorem C5_counterexample_update_amount_zero :
    (updateTransaction 7 4 (amountOnly 0)
      { projects := [fixProject 5 0 5], parties := [fixClient],
        transactions := [fixTx .income 5], nextId := 10 }).2 = .ok ()
    ∧ (updateTransaction 7 4 (amountOnly 0)
        { projects := [fixProject 5 0 5], parties := [fixClient],
          transactions := [fixTx .income 5], nextId := 10 }).1.transactions
      = [fixTx .income 0]
    ∧ (fixTx .income 0).amount = 0 := by decide

/-- C6 counterexample: the fixture transaction was created against party 2
(a CLIENT, hence kind income), but the party record has since been deleted
from the store; an `updateTransaction` that changes `kind` to the
incompatible `expense` is then accepted — the re-validation is guarded by
`if (party)` and is skipped entirely when `Party.findById` finds nothing,
so the check does not hold "regardless of the current state of the party
record". -/
theorem C6_counterexample_missing_party_skips_check :
    (updateTransaction 7 4 (kindOnly .expense)
      { projects := [fixProject 5 0 5], parties := [],
        transactions := [fixTx .income 5], nextId := 10 }).2 = .ok ()
    ∧ (updateTransaction 7 4 (kindOnly .expense)
        { projects := [fixProject 5 0 5], parties := [],
          transactions := [fixTx .income 5], nextId := 10 }).1.transactions
      = [fixTx .expense 5] := by decide

/-- C8 counterexample: start from project state S = (totalIncome 5,
totalExpense 0, netProfit 0) — a state the code itself produces, since
creating an income transaction leaves `netProfit` stale — then create an
expense transaction of amount 3 and soft-delete it.  Both operations
succeed, `totalIncome`/`totalExpense` return to (5, 0), but the signed
balance field ends at `netProfit = 5` (recomputed by the delete), not its
pre-creation value 0: the round trip is not bit-for-bit for every state S. -/
theorem C8_counterexample_netProfit_not_restored :
    (createTransaction 7
      { project := 1, party := 3, type := .expense, amount := 3, note := none }
      { projects := [fixProject 5 0 0], parties := [fixVendor],
        transactions := [], nextId := 20 }).2 = .ok 20
    ∧ (deleteTransaction 7 20
        (createTransaction 7
          { project := 1, party := 3, type := .expense, amount := 3, note := none }
          { projects := [fixProject 5 0 0], parties := [fixVendor],
            transactions := [], nextId := 20 }).1).2 = .ok ()
    ∧ (deleteTransaction 7 20
        (createTransaction 7
          { project := 1, party := 3, type := .expense, amount := 3, note := none }
          { projects := [fixProject 5 0 0], parties := [fixVendor],
            transactions := [], nextId := 20 }).1).1.projects
      = [fixProject 5 0 5]
    ∧ [fixProject 5 0 5] ≠ [fixProject 5 0 0] := by decide

/-- Inversion of a successful `createTransaction`: the amount must have been
strictly positive, the returned id is the fresh counter value, and the new
transaction document was appended with exactly the body's fields. -/
lemma create_ok_inv (uid : Nat) (b : CreateBody) (s : Store) (n : Nat)
    (hok : (createTransaction uid b s).2 = .ok n) :
    0 < b.amount ∧ n = s.nextId ∧
    (createTransaction uid b s).1.transactions = s.transactions ++
      [{ id := s.nextId, project := b.project, party := b.party,
         type := b.type, amount := b.amount, note := b.note,
         isDeleted := false }] := by
  unfold createTransaction at hok ⊢
  split at hok
  · simp at hok
  · rename_i h0
    split at hok
    · simp at hok
    · rename_i h1
      split at hok
      · simp at hok
      · rename_i p hfp
        split at hok
        · simp at hok
        · rename_i pa hpa
          split at hok
          · simp at hok
          · rename_i h2
            split at hok
            · simp at hok
            · rename_i h3
              simp only [] at hok
              refine ⟨by omega, ?_, ?_⟩
              · simpa using hok.symm
              · rw [if_neg h0, if_neg h1, if_neg h2, if_neg h3]

/-- Inversion of a successful `updateTransaction`: an owned, non-deleted
transaction was resolved, the merged document passed the `min: 0` amount
validator, and the stored record was replaced by the blind merge of the
body onto it. -/
lemma update_ok_inv (uid txId : Nat) (u : UpdateBody) (s : Store)
    (hok : (updateTransaction uid txId u s).2 = .ok ()) :
    ∃ tx, resolveOwnedTransaction uid txId s = some tx ∧
      0 ≤ (applyUpdates tx u).amount ∧
      (updateTransaction uid txId u s).1.transactions
        = s.transactions.map (fun t => if t.id == txId then applyUpdates tx u else t) := by
  unfold updateTransaction at hok ⊢
  split at hok
  · simp at hok
  · rename_i tx hfind
    refine ⟨tx, hfind, ?_⟩
    split at hok
    · simp at hok
    · split at hok
      · simp at hok
      · rename_i hm
        refine ⟨by omega, ?_⟩
        rw [if_neg hm]

/-- C10: soft delete is never applied twice.  When every stored record with
the requested id already has its soft-delete flag set, the scoped query
`{ _id, isDeleted: false, project ∈ owned }` resolves nothing, so both
`deleteTransaction` and `updateTransaction` answer 404 `txNotFound` and
return the store unchanged — the project accumulators and `netProfit` are
untouched, and an amount already reversed out once is never subtracted
again. -/
theorem C10_soft_delete_not_applied_twice (uid txId : Nat) (u : UpdateBody)
    (s : Store)
    (hdel : s.transactions.all (fun t => !(t.id == txId) || t.isDeleted) = true) :
    deleteTransaction uid txId s = (s, .error DeleteErr.txNotFound)
    ∧ updateTransaction uid txId u s = (s, .error UpdateErr.txNotFound) := by
  have hnone : resolveOwnedTransaction uid txId s = none := by
    unfold resolveOwnedTransaction
    rw [List.find?_eq_none]
    intro t ht hpred
    have halready := List.all_eq_true.mp hdel t ht
    simp only [Bool.or_eq_true, Bool.not_eq_true'] at halready
    simp only [Bool.and_eq_true] at hpred
    obtain ⟨⟨hid, hnd⟩, -⟩ := hpred
    rcases halready with h | h
    · rw [hid] at h
      exact Bool.noConfusion h
    · rw [beq_iff_eq] at hnd
      rw [hnd] at h
      exact Bool.noConfusion h
  constructor
  · unfold deleteTransaction
    rw [hnone]
  · unfold updateTransaction
    rw [hnone]

/-- C10 witness: on a store whose only transaction (id 4) is already
soft-deleted, both operations answer `txNotFound` and change nothing. -/
theorem C10_soft_delete_not_applied_twice_witness :
    deleteTransaction 7 4
      { projects := [fixProject 5 0 5], parties := [fixClient],
        transactions := [{ fixTx .income 5 with isDeleted := true }], nextId := 10 }
      = ({ projects := [fixProject 5 0 5], parties := [fixClient],
           transactions := [{ fixTx .income 5 with isDeleted := true }], nextId := 10 },
         .error DeleteErr.txNotFound)
    ∧ updateTransaction 7 4 (amountOnly 9)
      { projects := [fixProject 5 0 5], parties := [fixClient],
        transactions := [{ fixTx .income 5 with isDeleted := true }], nextId := 10 }
      = ({ projects := [fixProject 5 0 5], parties := [fixClient],
           transactions := [{ fixTx .income 5 with isDeleted := true }], nextId := 10 },
         .error UpdateErr.txNotFound) :=
  C10_soft_delete_not_applied_twice 7 4 (amountOnly 9)
    { projects := [fixProject 5 0 5], parties := [fixClient],
      transactions := [{ fixTx .income 5 with isDeleted := true }], nextId := 10 }
    (by decide)

/-- C7: a `createTransaction` request that passes the amount guards and
whose party resolves to a CLIENT while the requested kind is `expense` is
rejected with the CLIENT-only-income error (HTTP 400, the spec's
`InvalidState`), and the returned store is exactly the input store: no
project totals change and no transaction record is created. -/
theorem C7_client_expense_rejected_no_effect (uid : Nat) (b : CreateBody)
    (s : Store) (p : ProjectDoc) (pa : PartyDoc)
    (hamt : 0 < b.amount)
    (hp : s.projects.find? (fun q => q.id == b.project && q.createdBy == uid) = some p)
    (hpa : s.parties.find? (fun q => q.id == b.party && q.project == b.project) = some pa)
    (hc : pa.partyType = PartyType.CLIENT) (ht : b.type = TxKind.expense) :
    createTransaction uid b s = (s, .error CreateErr.clientOnlyIncome)
    ∧ CreateErr.clientOnlyIncome.status = 400 := by
  refine ⟨?_, rfl⟩
  have h0 : (b.amount == 0) = false := by
    simp only [beq_eq_false_iff_ne, ne_eq]
    omega
  have h1 : ¬ b.amount ≤ 0 := by omega
  simp [createTransaction, h0, h1, hp, hpa, hc, ht]

/-- C7 witness: user 7 asks for an expense of 5 against CLIENT party 2 of
project 1; the request is refused and the store comes back unchanged. -/
theorem C7_client_expense_rejected_no_effect_witness :
    createTransaction 7
      { project := 1, party := 2, type := .expense, amount := 5, note := none }
      { projects := [fixProject 0 0 0], parties := [fixClient],
        transactions := [], nextId := 10 }
      = ({ projects := [fixProject 0 0 0], parties := [fixClient],
           transactions := [], nextId := 10 },
         .error CreateErr.clientOnlyIncome)
    ∧ CreateErr.clientOnlyIncome.status = 400 :=
  C7_client_expense_rejected_no_effect 7
    { project := 1, party := 2, type := .expense, amount := 5, note := none }
    { projects := [fixProject 0 0 0], parties := [fixClient],
      transactions := [], nextId := 10 }
    (fixProject 0 0 0) fixClient
    (by decide) (by decide) (by decide) (by decide) (by decide)

/-- C5 amended: after a successful `createTransaction` the appended record
carries the request's strictly positive amount, but after a successful
`updateTransaction` the stored record — the blind merge of the body — is
only guaranteed a **non-negative** amount: the save-time validator is
`min: 0` and the handler never re-checks positivity, so amount 0 can be
stored (the claim's `amount > 0` invariant survives creation but not
updates). -/
theorem C5_amended_amount_bounds (uid txId n : Nat) (b : CreateBody)
    (u : UpdateBody) (s : Store) :
    ((createTransaction uid b s).2 = .ok n →
      0 < b.amount ∧
      (createTransaction uid b s).1.transactions = s.transactions ++
        [{ id := s.nextId, project := b.project, party := b.party,
           type := b.type, amount := b.amount, note := b.note,
           isDeleted := false }])
    ∧ ((updateTransaction uid txId u s).2 = .ok () →
      ∃ tx, resolveOwnedTransaction uid txId s = some tx ∧
        0 ≤ (applyUpdates tx u).amount ∧
        (updateTransaction uid txId u s).1.transactions
          = s.transactions.map (fun t =>
              if t.id == txId then applyUpdates tx u else t)) := by
  constructor
  · intro hok
    obtain ⟨h1, -, h3⟩ := create_ok_inv uid b s n hok
    exact ⟨h1, h3⟩
  · intro hok
    exact update_ok_inv uid txId u s hok

/-- C5 amended witness: a concrete successful creation appends a record of
amount 5 > 0. -/
theorem C5_amended_amount_bounds_witness :
    0 < (5 : Int) ∧
    (createTransaction 7
      { project := 1, party := 2, type := .income, amount := 5, note := none }
      { projects := [fixProject 0 0 0], parties := [fixClient],
        transactions := [], nextId := 10 }).1.transactions = [] ++
      [{ id := 10, project := 1, party := 2, type := .income, amount := 5,
         note := none, isDeleted := false }] :=
  (C5_amended_amount_bounds 7 4 10
    { project := 1, party := 2, type := .income, amount := 5, note := none }
    (amountOnly 0)
    { projects := [fixProject 0 0 0], parties := [fixClient],
      transactions := [], nextId := 10 }).1 (by decide)

/-- C9: `updateTransaction` performs a blind merge of the request body into
the stored transaction: every accepted request replaces exactly the
resolved record by `Object.assign(existing, body)` — fields absent from the
body are unchanged and fields present in it are overwritten, including
fields outside {kind, amount} such as `project`, `party` and `isDeleted` —
and the closing conjuncts exhibit a concrete accepted request that moves
the stored record to project 2, party 9 and `isDeleted = true` while the
totals adjustment is still applied to the transaction's original project 1
(using only amount and type). -/
theorem C9_update_blind_merge (uid txId : Nat) (u : UpdateBody) (s : Store)
    (hok : (updateTransaction uid txId u s).2 = .ok ()) :
    (∃ tx, resolveOwnedTransaction uid txId s = some tx ∧
      (updateTransaction uid txId u s).1.transactions
        = s.transactions.map (fun t =>
            if t.id == txId then applyUpdates tx u else t) ∧
      (u.type = none → (applyUpdates tx u).type = tx.type) ∧
      (u.amount = none → (applyUpdates tx u).amount = tx.amount) ∧
      (u.project = none → (applyUpdates tx u).project = tx.project) ∧
      (u.party = none → (applyUpdates tx u).party = tx.party) ∧
      (u.isDeleted = none → (applyUpdates tx u).isDeleted = tx.isDeleted) ∧
      (u.note = none → (applyUpdates tx u).note = tx.note) ∧
      (∀ v, u.type = some v → (applyUpdates tx u).type = v) ∧
      (∀ v, u.amount = some v → (applyUpdates tx u).amount = v) ∧
      (∀ v, u.project = some v → (applyUpdates tx u).project = v) ∧
      (∀ v, u.party = some v → (applyUpdates tx u).party = v) ∧
      (∀ v, u.isDeleted = some v → (applyUpdates tx u).isDeleted = v))
    ∧ (updateTransaction 7 4
        { type := none, amount := some 7, project := some 2, party := some 9,
          isDeleted := some true, note := none }
        { projects := [fixProject 5 0 5, fixOther], parties := [fixClient],
          transactions := [fixTx .income 5], nextId := 30 }).2 = .ok ()
    ∧ (updateTransaction 7 4
        { type := none, amount := some 7, project := some 2, party := some 9,
          isDeleted := some true, note := none }
        { projects := [fixProject 5 0 5, fixOther], parties := [fixClient],
          transactions := [fixTx .income 5], nextId := 30 }).1.transactions
      = [{ id := 4, project := 2, party := 9, type := .income, amount := 7,
           note := none, isDeleted := true }]
    ∧ (updateTransaction 7 4
        { type := none, amount := some 7, project := some 2, party := some 9,
          isDeleted := some true, note := none }
        { projects := [fixProject 5 0 5, fixOther], parties := [fixClient],
          transactions := [fixTx .income 5], nextId := 30 }).1.projects
      = [fixProject 7 0 7, fixOther] := by
  refine ⟨?_, by decide, by decide, by decide⟩
  obtain ⟨tx, hfind, -, htrans⟩ := update_ok_inv uid txId u s hok
  refine ⟨tx, hfind, htrans, ?_, ?_, ?_, ?_, ?_, ?_, ?_, ?_, ?_, ?_, ?_⟩
  · intro h; simp [applyUpdates, h]
  · intro h; simp [applyUpdates, h]
  · intro h; simp [applyUpdates, h]
  · intro h; simp [applyUpdates, h]
  · intro h; simp [applyUpdates, h]
  · intro h; simp [applyUpdates, h]
  · intro v h; simp [applyUpdates, h]
  · intro v h; simp [applyUpdates, h]
  · intro v h; simp [applyUpdates, h]
  · intro v h; simp [applyUpdates, h]
  · intro v h; simp [applyUpdates, h]

/-- C9 witness: the theorem applied at the concrete accepted request of
its demonstration conjuncts. -/
theorem C9_update_blind_merge_witness :
    (updateTransaction 7 4
      { type := none, amount := some 7, project := some 2, party := some 9,
        isDeleted := some true, note := none }
      { projects := [fixProject 5 0 5, fixOther], parties := [fixClient],
        transactions := [fixTx .income 5], nextId := 30 }).1.transactions
      = [{ id := 4, project := 2, party := 9, type := .income, amount := 7,
           note := none, isDeleted := true }] :=
  (C9_update_blind_merge 7 4
    { type := none, amount := some 7, project := some 2, party := some 9,
      isDeleted := some true, note := none }
    { projects := [fixProject 5 0 5, fixOther], parties := [fixClient],
      transactions := [fixTx .income 5], nextId := 30 }
    (by decide)).2.2.1

/-- C6 amended: when an `updateTransaction` body supplies a new kind, the
Party Type Policy is re-validated against the transaction's existing party
**only when that party record still resolves**: if the party is a CLIENT the
kind must stay income and if a VENDOR it must stay expense, and a rejection
leaves the store (transaction and project totals) unchanged; but when the
party record has been deleted from the store the check is skipped entirely
and any kind is accepted — so the re-validation does not hold "regardless
of the current state of the party record". -/
theorem C6_amended_party_type_recheck (uid txId : Nat) (s : Store)
    (tx : TransactionDoc)
    (hfind : resolveOwnedTransaction uid txId s = some tx) :
    (∀ pa, s.parties.find? (fun q => q.id == tx.party) = some pa →
      pa.partyType = PartyType.CLIENT →
      updateTransaction uid txId (kindOnly .expense) s
        = (s, .error UpdateErr.clientOnlyIncome))
    ∧ (∀ pa, s.parties.find? (fun q => q.id == tx.party) = some pa →
      pa.partyType = PartyType.VENDOR →
      updateTransaction uid txId (kindOnly .income) s
        = (s, .error UpdateErr.vendorOnlyExpense))
    ∧ (s.parties.find? (fun q => q.id == tx.party) = none →
      0 ≤ tx.amount →
      ∀ k, (updateTransaction uid txId (kindOnly k) s).2 = .ok ()) := by
  refine ⟨?_, ?_, ?_⟩
  · intro pa hpa hc
    simp [updateTransaction, hfind, updateTypeGuard, kindOnly,
      UpdateBody.empty, updatePartyTypeCheck, hpa, hc]
  · intro pa hpa hv
    simp [updateTransaction, hfind, updateTypeGuard, kindOnly,
      UpdateBody.empty, updatePartyTypeCheck, hpa, hv]
  · intro hnone hA k
    have hm : ¬ tx.amount < 0 := by omega
    simp [updateTransaction, hfind, updateTypeGuard, kindOnly,
      UpdateBody.empty, updatePartyTypeCheck, applyUpdates, hnone, hm]

/-- C6 amended witness: on a store whose party record (CLIENT, id 2) is
still present, updating the income transaction's kind to expense is
rejected and the store is unchanged. -/
theorem C6_amended_party_type_recheck_witness :
    updateTransaction 7 4 (kindOnly .expense)
      { projects := [fixProject 5 0 5], parties := [fixClient],
        transactions := [fixTx .income 5], nextId := 10 }
      = ({ projects := [fixProject 5 0 5], parties := [fixClient],
           transactions := [fixTx .income 5], nextId := 10 },
         .error UpdateErr.clientOnlyIncome) :=
  (C6_amended_party_type_recheck 7 4
    { projects := [fixProject 5 0 5], parties := [fixClient],
      transactions := [fixTx .income 5], nextId := 10 }
    (fixTx .income 5) (by decide)).1 fixClient (by decide) (by decide)

/-- C4 amended: `createTransaction`'s preconditions are checked in order
with the first failure winning, but the required-fields/amount guards run
**before** the lookups: amount = 0 hits the missing-fields error and
amount < 0 the non-positive-amount error (both HTTP 400 `InvalidInput`)
with the store unchanged, regardless of whether the project resolves; only
for positive amounts do the checks proceed to project ownership (404
`NotFound`), then party membership (404 `NotFound`), then party-type
compatibility (400 `InvalidState`).  Hence a request with an unresolvable
project and a non-positive amount is answered `InvalidInput`, not
`NotFound`. -/
theorem C4_amended_precondition_order (uid : Nat) (b : CreateBody) (s : Store) :
    (b.amount = 0 →
      createTransaction uid b s = (s, .error .missingFields))
    ∧ (b.amount < 0 →
      createTransaction uid b s = (s, .error .nonPositiveAmount))
    ∧ (0 < b.amount →
      s.projects.find? (fun q => q.id == b.project && q.createdBy == uid) = none →
      createTransaction uid b s = (s, .error .projectNotFound))
    ∧ (∀ p, 0 < b.amount →
      s.projects.find? (fun q => q.id == b.project && q.createdBy == uid) = some p →
      s.parties.find? (fun q => q.id == b.party && q.project == b.project) = none →
      createTransaction uid b s = (s, .error .partyNotFound))
    ∧ (∀ p pa, 0 < b.amount →
      s.projects.find? (fun q => q.id == b.project && q.createdBy == uid) = some p →
      s.parties.find? (fun q => q.id == b.party && q.project == b.project) = some pa →
      pa.partyType = PartyType.CLIENT → b.type = TxKind.expense →
      createTransaction uid b s = (s, .error .clientOnlyIncome))
    ∧ (CreateErr.missingFields.status = 400
       ∧ CreateErr.nonPositiveAmount.status = 400
       ∧ CreateErr.projectNotFound.status = 404
       ∧ CreateErr.partyNotFound.status = 404
       ∧ CreateErr.clientOnlyIncome.status = 400) := by
  refine ⟨?_, ?_, ?_, ?_, ?_, by decide⟩
  · intro h
    simp [createTransaction, h]
  · intro h
    have h0 : (b.amount == 0) = false := by
      simp only [beq_eq_false_iff_ne, ne_eq]
      omega
    have h1 : b.amount ≤ 0 := le_of_lt h
    simp [createTransaction, h0, h1]
  · intro h hfp
    have h0 : (b.amount == 0) = false := by
      simp only [beq_eq_false_iff_ne, ne_eq]
      omega
    have h1 : ¬ b.amount ≤ 0 := by omega
    simp [createTransaction, h0, h1, hfp]
  · intro p h hfp hpa
    have h0 : (b.amount == 0) = false := by
      simp only [beq_eq_false_iff_ne, ne_eq]
      omega
    have h1 : ¬ b.amount ≤ 0 := by omega
    simp [createTransaction, h0, h1, hfp, hpa]
  · intro p pa h hfp hpa hc ht
    have h0 : (b.amount == 0) = false := by
      simp only [beq_eq_false_iff_ne, ne_eq]
      omega
    have h1 : ¬ b.amount ≤ 0 := by omega
    simp [createTransaction, h0, h1, hfp, hpa, hc, ht]

/-- C4 amended witness: with an empty store, a request for amount -1 is
answered with the non-positive-amount error even though the project does
not resolve. -/
theorem C4_amended_precondition_order_witness :
    createTransaction 7
      { project := 1, party := 2, type := .income, amount := -1, note := none }
      { projects := [], parties := [], transactions := [], nextId := 0 }
      = ({ projects := [], parties := [], transactions := [], nextId := 0 },
         .error .nonPositiveAmount) :=
  (C4_amended_precondition_order 7
    { project := 1, party := 2, type := .income, amount := -1, note := none }
    { projects := [], parties := [], transactions := [], nextId := 0 }).2.1
    (by decide)

/-- C3: for every accepted `updateTransaction` that changes only the amount
(from A = `tx.amount` to B, kind unchanged), exactly the accumulator
matching the transaction's kind changes, by B - A (written below as
`- tx.amount + B`), and the other accumulator is unchanged — with no
assumption on the transaction's party, since the party-type re-validation
does not run when the body carries no `kind`; for an accepted update that
changes only the kind of an income transaction to expense, the amount A is
subtracted from `totalIncome` and added to `totalExpense` — there the
party-lookup antecedent (party record absent or VENDOR) characterises
exactly the requests the handler accepts.  (`netProfit` is recomputed
alongside.) -/
theorem C3_update_totals_delta (uid txId : Nat) (s : Store)
    (tx : TransactionDoc) (p : ProjectDoc) (B : Int)
    (hfind : resolveOwnedTransaction uid txId s = some tx)
    (hp : s.projects.find? (fun q => q.id == tx.project) = some p)
    (hA : 0 ≤ tx.amount) (hB : 0 ≤ B) :
    (tx.type = .income →
      (updateTransaction uid txId (amountOnly B) s).2 = .ok () ∧
      (updateTransaction uid txId (amountOnly B) s).1.projects.find?
          (fun q => q.id == tx.project)
        = some { p with totalIncome := p.totalIncome - tx.amount + B,
                        netProfit := p.totalIncome - tx.amount + B - p.totalExpense })
    ∧ (tx.type = .expense →
      (updateTransaction uid txId (amountOnly B) s).2 = .ok () ∧
      (updateTransaction uid txId (amountOnly B) s).1.projects.find?
          (fun q => q.id == tx.project)
        = some { p with totalExpense := p.totalExpense - tx.amount + B,
                        netProfit := p.totalIncome - (p.totalExpense - tx.amount + B) })
    ∧ (tx.type = .income →
      (s.parties.find? (fun q => q.id == tx.party)).all
        (fun pa => pa.partyType == PartyType.VENDOR) = true →
      (updateTransaction uid txId (kindOnly .expense) s).2 = .ok () ∧
      (updateTransaction uid txId (kindOnly .expense) s).1.projects.find?
          (fun q => q.id == tx.project)
        = some { p with totalIncome := p.totalIncome - tx.amount,
                        totalExpense := p.totalExpense + tx.amount,
                        netProfit := p.totalIncome - tx.amount
                          - (p.totalExpense + tx.amount) }) := by
  have hBneg : ¬ B < 0 := by omega
  have hAneg : ¬ tx.amount < 0 := by omega
  have hpid : p.id = tx.project := by simpa using List.find?_some hp
  refine ⟨?_, ?_, ?_⟩
  · intro ht
    constructor
    · simp [updateTransaction, hfind, updateTypeGuard, amountOnly,
        UpdateBody.empty, applyUpdates, hBneg]
    · have key := setProjectTotals_find s.projects tx.project
        (p.totalIncome - tx.amount + B) p.totalExpense
        (some (p.totalIncome - tx.amount + B - p.totalExpense)) p hp
      simp only [Option.getD_some] at key
      simp [updateTransaction, hfind, updateTypeGuard, amountOnly,
        UpdateBody.empty, applyUpdates, hBneg, updateProjectsAfter, hp,
        reverseAndReapply, ht, hpid, key]
  · intro ht
    constructor
    · simp [updateTransaction, hfind, updateTypeGuard, amountOnly,
        UpdateBody.empty, applyUpdates, hBneg]
    · have key := setProjectTotals_find s.projects tx.project
        p.totalIncome (p.totalExpense - tx.amount + B)
        (some (p.totalIncome - (p.totalExpense - tx.amount + B))) p hp
      simp only [Option.getD_some] at key
      simp [updateTransaction, hfind, updateTypeGuard, amountOnly,
        UpdateBody.empty, applyUpdates, hBneg, updateProjectsAfter, hp,
        reverseAndReapply, ht, hpid, key]
  · intro ht hpa
    have hguard : updateTypeGuard (kindOnly .expense)
        (s.parties.find? (fun q => q.id == tx.party)) = none := by
      cases hfo : s.parties.find? (fun q => q.id == tx.party) with
      | none => simp [updateTypeGuard, kindOnly, UpdateBody.empty, updatePartyTypeCheck]
      | some pa =>
        rw [hfo] at hpa
        simp only [Option.all_some, beq_iff_eq] at hpa
        simp [updateTypeGuard, kindOnly, UpdateBody.empty, updatePartyTypeCheck, hpa]
    simp only [kindOnly, UpdateBody.empty] at hguard
    constructor
    · simp [updateTransaction, hfind, hguard, applyUpdates, kindOnly,
        UpdateBody.empty, hAneg]
    · have key := setProjectTotals_find s.projects tx.project
        (p.totalIncome - tx.amount) (p.totalExpense + tx.amount)
        (some (p.totalIncome - tx.amount - (p.totalExpense + tx.amount))) p hp
      simp only [Option.getD_some] at key
      simp [updateTransaction, hfind, hguard, applyUpdates, kindOnly,
        UpdateBody.empty, hAneg, updateProjectsAfter, hp,
        reverseAndReapply, ht, hpid, key]

/-- C3 witness: on a store where the income transaction's CLIENT party is
still present (the canonical case), updating only the amount from 5 to 9 on
a project with totals (10, 4) is accepted and moves `totalIncome` to 14
while leaving `totalExpense` at 4. -/
theorem C3_update_totals_delta_witness :
    (updateTransaction 7 4 (amountOnly 9)
      { projects := [fixProject 10 4 6], parties := [fixClient],
        transactions := [fixTx .income 5], nextId := 10 }).2 = .ok () ∧
    (updateTransaction 7 4 (amountOnly 9)
      { projects := [fixProject 10 4 6], parties := [fixClient],
        transactions := [fixTx .income 5], nextId := 10 }).1.projects.find?
        (fun q => q.id == (fixTx .income 5).project)
      = some { fixProject 10 4 6 with
               totalIncome := (fixProject 10 4 6).totalIncome - (fixTx .income 5).amount + 9,
               netProfit := (fixProject 10 4 6).totalIncome - (fixTx .income 5).amount + 9
                 - (fixProject 10 4 6).totalExpense } :=
  (C3_update_totals_delta 7 4
    { projects := [fixProject 10 4 6], parties := [fixClient],
      transactions := [fixTx .income 5], nextId := 10 }
    (fixTx .income 5) (fixProject 10 4 6) 9
    (by decide) (by decide) (by decide) (by decide)).1 rfl

/-- C8 amended: creating an expense transaction of amount A > 0 on a project
in state S and then soft-deleting that same transaction succeeds and returns
`totalIncome` and `totalExpense` exactly to their values in S; the signed
balance field `netProfit`, however, ends at `totalIncome - totalExpense`
(recomputed by the delete — the create's balance write is stripped), so the
full project state returns bit-for-bit exactly when S already satisfied
`netProfit = totalIncome - totalExpense` (final conjunct).  The hypotheses
say: the project resolves (both under the ownership-scoped lookup and the
plain id lookup, i.e. ids are unambiguous), the party is a VENDOR of that
project, and the id counter is fresh. -/
theorem C8_amended_create_delete_roundtrip (uid pid paid : Nat) (A : Int)
    (s : Store) (p : ProjectDoc) (pa : PartyDoc)
    (hA : 0 < A)
    (hp : s.projects.find? (fun q => q.id == pid && q.createdBy == uid) = some p)
    (hpid : s.projects.find? (fun q => q.id == pid) = some p)
    (hpa : s.parties.find? (fun q => q.id == paid && q.project == pid) = some pa)
    (hv : pa.partyType = PartyType.VENDOR)
    (hfresh : s.transactions.all (fun t => !(t.id == s.nextId)) = true) :
    (createTransaction uid
      { project := pid, party := paid, type := .expense, amount := A, note := none } s).2
      = .ok s.nextId
    ∧ (deleteTransaction uid s.nextId
        (createTransaction uid
          { project := pid, party := paid, type := .expense, amount := A, note := none } s).1).2
      = .ok ()
    ∧ (deleteTransaction uid s.nextId
        (createTransaction uid
          { project := pid, party := paid, type := .expense, amount := A, note := none } s).1).1.projects.find?
        (fun q => q.id == pid)
      = some { p with netProfit := p.totalIncome - p.totalExpense }
    ∧ (p.netProfit = p.totalIncome - p.totalExpense →
      (deleteTransaction uid s.nextId
        (createTransaction uid
          { project := pid, party := paid, type := .expense, amount := A, note := none } s).1).1.projects.find?
        (fun q => q.id == pid)
      = some p) := by
  have h0 : (A == 0) = false := by
    simp only [beq_eq_false_iff_ne, ne_eq]
    omega
  have h1 : ¬ A ≤ 0 := by omega
  have hAneg : ¬ A < 0 := by omega
  have hppid : p.id = pid := by simpa using List.find?_some hpid
  have hcreate : createTransaction uid
      { project := pid, party := paid, type := .expense, amount := A, note := none } s
      = ({ s with
            projects := setProjectTotals pid
              p.totalIncome (p.totalExpense + A) none s.projects,
            transactions := s.transactions ++
              [{ id := s.nextId, project := pid, party := paid, type := .expense,
                 amount := A, note := none, isDeleted := false }],
            nextId := s.nextId + 1 }, .ok s.nextId) := by
    simp [createTransaction, h0, h1, hp, hpa, hv]
  have hcont : (getProjectsByUser uid s.projects).contains pid = true :=
    contains_of_find_owned uid pid s.projects p hp
  have hres : resolveOwnedTransaction uid s.nextId
      ({ s with
          projects := setProjectTotals pid
            p.totalIncome (p.totalExpense + A) none s.projects,
          transactions := s.transactions ++
            [{ id := s.nextId, project := pid, party := paid, type := .expense,
               amount := A, note := none, isDeleted := false }],
          nextId := s.nextId + 1 })
      = some { id := s.nextId, project := pid, party := paid, type := .expense,
               amount := A, note := none, isDeleted := false } := by
    unfold resolveOwnedTransaction
    apply find_append_fresh
    · intro t ht
      have hid := List.all_eq_true.mp hfresh t ht
      simp only [Bool.not_eq_true'] at hid
      simp [hid]
    · simp [getProjectsByUser_setProjectTotals]
      exact List.mem_of_elem_eq_true hcont
  have hfind1 : (setProjectTotals pid p.totalIncome (p.totalExpense + A) none
      s.projects).find? (fun q => q.id == pid)
      = some { p with totalExpense := p.totalExpense + A } := by
    simpa using setProjectTotals_find s.projects pid
      p.totalIncome (p.totalExpense + A) none p hpid
  have hkey := setProjectTotals_find
    (setProjectTotals pid p.totalIncome (p.totalExpense + A) none s.projects)
    pid p.totalIncome p.totalExpense (some (p.totalIncome - p.totalExpense))
    { p with totalExpense := p.totalExpense + A } hfind1
  simp only [Option.getD_some] at hkey
  have hdel3 : (deleteTransaction uid s.nextId
      (createTransaction uid
        { project := pid, party := paid, type := .expense, amount := A, note := none } s).1).1.projects.find?
      (fun q => q.id == pid)
      = some { p with netProfit := p.totalIncome - p.totalExpense } := by
    rw [hcreate]
    simp [deleteTransaction, hres, hAneg, deleteProjectsAfter, hfind1, hppid, hkey]
  refine ⟨by rw [hcreate], ?_, hdel3, ?_⟩
  · rw [hcreate]
    simp [deleteTransaction, hres, hAneg]
  · intro hinv
    rw [hdel3, ← hinv]

/-- C8 amended witness: on the consistent state (totalIncome 10,
totalExpense 4, netProfit 6), creating an expense of 3 and deleting it
restores the exact project document. -/
theorem C8_amended_create_delete_roundtrip_witness :
    (deleteTransaction 7 20
      (createTransaction 7
        { project := 1, party := 3, type := .expense, amount := 3, note := none }
        { projects := [fixProject 10 4 6], parties := [fixVendor],
          transactions := [], nextId := 20 }).1).1.projects.find?
      (fun q => q.id == 1)
      = some (fixProject 10 4 6) :=
  (C8_amended_create_delete_roundtrip 7 1 3 3
    { projects := [fixProject 10 4 6], parties := [fixVendor],
      transactions := [], nextId := 20 }
    (fixProject 10 4 6) fixVendor
    (by decide) (by decide) (by decide) (by decide) (by decide) (by decide)).2.2.2
    (by decide)
